import Mathlib

/-!
Verification of the embedded-webview security boundary of the Infinitty
desktop shell (src/src-tauri/src/lib.rs): the URL policy
(validate_external_url), the filesystem path policy (sanitize_fs_path),
and the webview registry lifecycle commands (navigate_webview,
destroy_webview, execute_webview_script).

Strings coming from the Rust side are modelled as Lean String values and
processed through explicit, structurally recursive char-list functions so
that everything evaluates inside the kernel.  Calls into external crates
and into the native platform layer (the url crate's parser, and the
webview navigate / close / eval calls) are modelled as oracle parameters:
the embedding receives the outcome the external call would produce.
-/

namespace Infinitty

/-- Split a character list on a separator, keeping empty chunks, as Rust's
str::split does.  The empty list yields one empty chunk. -/
def splitOnChar (sep : Char) : List Char → List (List Char)
  | [] => [[]]
  | c :: cs =>
    let rest := splitOnChar sep cs
    if c = sep then [] :: rest
    else
      match rest with
      | r :: rs => (c :: r) :: rs
      | [] => [[c]]

/-! ## URL policy (validate_external_url) -/

/-- A parsed absolute URL, as far as the policy inspects it: the scheme and
the host part.  The url crate's Url::host_str returns an optional string;
the source calls .unwrap_or_default(), modelled by Option.getD below. -/
structure Url where
  scheme : String
  host : Option String
deriving DecidableEq, Repr

/-- host_str().unwrap_or_default() from the source. -/
def Url.hostStr (u : Url) : String := u.host.getD ""

/-- The literal host blocklist from validate_external_url. -/
def blockedHosts : List String := ["localhost", "127.0.0.1", "0.0.0.0", "::1"]

/-- One octet of a dotted-decimal IPv4 address, following Rust's
std Ipv4Addr parser: 1 to 3 decimal digits, no leading zero on a
multi-digit group, value at most 255. -/
def parseOctet (cs : List Char) : Option Nat :=
  if cs = [] then none
  else if 3 < cs.length then none
  else if ¬ cs.all Char.isDigit then none
  else if 1 < cs.length ∧ cs.head? = some '0' then none
  else
    let v := cs.foldl (fun acc c => acc * 10 + (c.toNat - 48)) 0
    if v ≤ 255 then some v else none

/-- host.parse::<Ipv4Addr>() from the source: exactly four octets
separated by single dots. -/
def parseIpv4 (host : String) : Option (Nat × Nat × Nat × Nat) :=
  match splitOnChar '.' host.data with
  | [p1, p2, p3, p4] =>
    match parseOctet p1, parseOctet p2, parseOctet p3, parseOctet p4 with
    | some a, some b, some c, some d => some (a, b, c, d)
    | _, _, _, _ => none
  | _ => none

/-- validate_external_url from lib.rs lines 577-602.  Rules in source
order: scheme must be http or https; host must not be one of the literal
blocklist strings; a host parsing as dotted-decimal IPv4 must not lie in
10.0.0.0/8, 172.16.0.0/12 or 192.168.0.0/16. -/
def validate_external_url (url : Url) : Except String Unit :=
  let scheme := url.scheme
  if scheme ≠ "http" ∧ scheme ≠ "https" then
    .error ("Blocked URL scheme: " ++ scheme)
  else
    let host := url.hostStr
    if host ∈ blockedHosts then
      .error ("Blocked URL host: " ++ host)
    else
      match parseIpv4 host with
      | some (a, b, _, _) =>
        if a = 10 ∨ (a = 172 ∧ (16 ≤ b ∧ b ≤ 31)) ∨ (a = 192 ∧ b = 168) then
          .error ("Blocked private IP: " ++ host)
        else
          .ok ()
      | none => .ok ()

/-! ## Path policy (sanitize_fs_path) -/

/-- Unicode White_Space test, matching Rust's char::is_whitespace used by
str::trim. -/
def isRustWhitespace (c : Char) : Bool :=
  let n := c.toNat
  (9 ≤ n ∧ n ≤ 13) ∨ n = 32 ∨ n = 133 ∨ n = 160 ∨ n = 5760 ∨
    (8192 ≤ n ∧ n ≤ 8202) ∨ n = 8232 ∨ n = 8233 ∨ n = 8239 ∨ n = 8287 ∨ n = 12288

/-- str::trim from Rust: drop whitespace from both ends. -/
def rustTrim (l : List Char) : List Char :=
  ((l.dropWhile isRustWhitespace).reverse.dropWhile isRustWhitespace).reverse

/-- One component of a Unix path, as produced by Rust's
std Path::components. -/
inductive PathComponent where
  | rootDir
  | curDir
  | parentDir
  | normal (name : List Char)
deriving DecidableEq, Repr

/-- Classification of one slash-separated chunk of a path, for chunks in
non-leading position: empty chunks (repeated separators, trailing slash)
and "." chunks are dropped, ".." is a parent-directory component,
anything else is a normal component. -/
def classifyPart (part : List Char) : Option PathComponent :=
  if part = [] then none
  else if part = ['.'] then none
  else if part = ['.', '.'] then some .parentDir
  else some (.normal part)

/-- std Path::components on Unix: a leading slash yields a root component;
a leading "." chunk of a relative path is kept as a current-directory
component; all chunks are then classified by classifyPart. -/
def pathComponents (p : String) : List PathComponent :=
  let parts := splitOnChar '/' p.data
  let norm := parts.filterMap classifyPart
  if p.data.head? = some '/' then
    .rootDir :: norm
  else
    match parts with
    | ['.'] :: _ => .curDir :: norm
    | _ => norm

/-- sanitize_fs_path from lib.rs lines 543-575.  The home directory
argument models the value resolved from the HOME / USERPROFILE
environment variables (None when neither is set).  Path::is_absolute on
Unix is a leading slash; Path::starts_with is component-wise prefix. -/
def sanitize_fs_path (homeEnv : Option String) (path : String) : Except String String :=
  if rustTrim path.data = [] then .error "Empty path"
  else if ¬ path.data.head? = some '/' then .error "Path must be absolute"
  else if PathComponent.parentDir ∈ pathComponents path then
    .error "Parent directory traversal is not allowed"
  else
    match homeEnv with
    | some home =>
      if (pathComponents home).isPrefixOf (pathComponents path) then .ok path
      else .error "File operations are restricted to the home directory"
    | none => .ok path

/-! ## Webview registry and lifecycle commands -/

/-- StoredWebview from lib.rs: the bookkeeping record for one surface. -/
structure StoredWebview where
  url : Url
  trusted : Bool
deriving DecidableEq, Repr

/-- The process state the lifecycle commands touch: the WebviewStore map
(an association list with unique keys, modelling the HashMap behind the
mutex) and the set of labels of live native webviews (what
app.get_webview can find).  The store is installed by .manage at startup
(lib.rs line 854), so try_state always succeeds and is not modelled as
fallible. -/
structure AppState where
  store : List (String × StoredWebview)
  native : List String
deriving DecidableEq, Repr

/-- HashMap::get on the store. -/
def storeGet : List (String × StoredWebview) → String → Option StoredWebview
  | [], _ => none
  | (k, v) :: rest, id => if k = id then some v else storeGet rest id

/-- HashMap::remove on the store. -/
def storeRemove : List (String × StoredWebview) → String → List (String × StoredWebview)
  | [], _ => []
  | (k, v) :: rest, id =>
    if k = id then storeRemove rest id else (k, v) :: storeRemove rest id

/-- HashMap::get_mut followed by writing the url field, as navigate_webview
does on success. -/
def storeSetUrl : List (String × StoredWebview) → String → Url → List (String × StoredWebview)
  | [], _, _ => []
  | (k, v) :: rest, id, u =>
    if k = id then (k, { v with url := u }) :: rest
    else (k, v) :: storeSetUrl rest id u

/-- navigate_webview from lib.rs lines 111-134.  parsedUrl is the outcome
of url.parse() in the url crate (oracle); navErr is the outcome of the
native webview.navigate call when it is reached (none = success).
Returns the command result together with the state after the call. -/
def navigate_webview (st : AppState) (parsedUrl : Except String Url)
    (navErr : Option String) (webview_id : String) :
    Except String Unit × AppState :=
  match parsedUrl with
  | .error e => (.error e, st)
  | .ok u =>
    match validate_external_url u with
    | .error e => (.error e, st)
    | .ok _ =>
      if webview_id ∈ st.native then
        match navErr with
        | some e => (.error e, st)
        | none => (.ok (), { st with store := storeSetUrl st.store webview_id u })
      else (.error "Webview not found", st)

/-- destroy_webview from lib.rs lines 136-155.  The registry entry is
removed first; then, if a live native surface exists, it is closed.
closeErr is the outcome of the native webview.close call (none =
success, in which case the native surface is gone); a close error is
propagated by the question-mark operator in the source. -/
def destroy_webview (st : AppState) (closeErr : Option String)
    (webview_id : String) : Except String Unit × AppState :=
  let st1 : AppState := { st with store := storeRemove st.store webview_id }
  if webview_id ∈ st1.native then
    match closeErr with
    | some e => (.error e, st1)
    | none => (.ok (), { st1 with native := st1.native.filter (fun l => l ≠ webview_id) })
  else
    (.ok (), st1)

/-- execute_webview_script from lib.rs lines 157-187.  The size ceiling
compares script.len(), which in Rust is the UTF-8 byte length.  evalErr
is the outcome of the native webview.eval call when it is reached (none
= success). -/
def execute_webview_script (st : AppState) (evalErr : Option String)
    (webview_id script : String) : Except String String :=
  if 100000 < script.utf8ByteSize then .error "Script too large"
  else
    match storeGet st.store webview_id with
    | some entry =>
      if entry.trusted then
        if webview_id ∈ st.native then
          match evalErr with
          | none => .ok "executed"
          | some e => .error e
        else .error "Webview not found"
      else .error "Webview is not trusted for script execution"
    | none => .error "Webview is not trusted for script execution"

/-- A script of 100001 ASCII characters, used as a concrete oversized
payload. -/
def bigScript : String := String.mk (List.replicate 100001 'a')

/-! ## Helper lemmas -/

theorem length_le_utf8ByteSize (s : String) : s.length ≤ s.utf8ByteSize := by
  cases s with
  | mk data =>
    show data.length ≤ String.utf8ByteSize.go data
    induction data with
    | nil => exact Nat.le_refl 0
    | cons c cs ih =>
      have hg : String.utf8ByteSize.go (c :: cs) =
          String.utf8ByteSize.go cs + c.utf8Size := rfl
      have hpos := Char.utf8Size_pos c
      simp only [List.length_cons, hg]
      omega

theorem bigScript_length : bigScript.length = 100001 := by
  show (List.replicate 100001 'a').length = 100001
  rw [List.length_replicate]

theorem schemeMsg_ne_hostMsg (s h : String) :
    "Blocked URL scheme: " ++ s ≠ "Blocked URL host: " ++ h := by
  intro hEq
  have h12 : ('s' : Char) = 'h' := congrArg (fun t => t.get ⟨12⟩) hEq
  exact absurd h12 (by decide)

theorem schemeMsg_ne_privateMsg (s h : String) :
    "Blocked URL scheme: " ++ s ≠ "Blocked private IP: " ++ h := by
  intro hEq
  have h8 : ('U' : Char) = 'p' := congrArg (fun t => t.get ⟨8⟩) hEq
  exact absurd h8 (by decide)

theorem hostMsg_ne_privateMsg (s h : String) :
    "Blocked URL host: " ++ s ≠ "Blocked private IP: " ++ h := by
  intro hEq
  have h8 : ('U' : Char) = 'p' := congrArg (fun t => t.get ⟨8⟩) hEq
  exact absurd h8 (by decide)

theorem storeGet_storeRemove (m : List (String × StoredWebview)) (id : String) :
    storeGet (storeRemove m id) id = none := by
  induction m with
  | nil => rfl
  | cons kv rest ih =>
    obtain ⟨k, v⟩ := kv
    unfold storeRemove
    by_cases hk : k = id
    · rw [if_pos hk]; exact ih
    · rw [if_neg hk]
      unfold storeGet
      rw [if_neg hk]
      exact ih

theorem private_parse_not_blocked (h : String) (a b c d : Nat)
    (hp : parseIpv4 h = some (a, b, c, d))
    (hpriv : a = 10 ∨ (a = 172 ∧ (16 ≤ b ∧ b ≤ 31)) ∨ (a = 192 ∧ b = 168)) :
    h ∉ blockedHosts := by
  intro hmem
  simp only [blockedHosts, List.mem_cons, List.not_mem_nil, or_false] at hmem
  rcases hmem with h1 | h1 | h1 | h1 <;> subst h1
  · rw [show parseIpv4 "localhost" = none from by decide] at hp
    exact Option.noConfusion hp
  · rw [show parseIpv4 "127.0.0.1" = some (127, 0, 0, 1) from by decide] at hp
    have ha : a = 127 := by
      have := (Option.some.injEq _ _).mp hp
      exact (congrArg Prod.fst this).symm
    subst ha
    rcases hpriv with h2 | ⟨h2, _⟩ | ⟨h2, _⟩ <;> exact absurd h2 (by decide)
  · rw [show parseIpv4 "0.0.0.0" = some (0, 0, 0, 0) from by decide] at hp
    have ha : a = 0 := by
      have := (Option.some.injEq _ _).mp hp
      exact (congrArg Prod.fst this).symm
    subst ha
    rcases hpriv with h2 | ⟨h2, _⟩ | ⟨h2, _⟩ <;> exact absurd h2 (by decide)
  · rw [show parseIpv4 "::1" = none from by decide] at hp
    exact Option.noConfusion hp

theorem splitOnChar_ne_nil (sep : Char) (l : List Char) :
    splitOnChar sep l ≠ [] := by
  cases l with
  | nil => exact fun h => List.noConfusion h
  | cons c cs =>
    unfold splitOnChar
    by_cases hc : c = sep
    · rw [if_pos hc]; exact fun h => List.noConfusion h
    · rw [if_neg hc]
      cases splitOnChar sep cs with
      | nil => exact fun h => List.noConfusion h
      | cons r rs => exact fun h => List.noConfusion h

theorem mem_of_mem_splitOnChar (sep c : Char) :
    ∀ (l : List Char) (part : List Char),
      part ∈ splitOnChar sep l → c ∈ part → c ∈ l := by
  intro l
  induction l with
  | nil =>
    intro part hp hc
    simp only [splitOnChar, List.mem_singleton] at hp
    subst hp
    exact absurd hc (List.not_mem_nil c)
  | cons x xs ih =>
    intro part hp hc
    unfold splitOnChar at hp
    by_cases hx : x = sep
    · rw [if_pos hx] at hp
      rcases List.mem_cons.mp hp with h | h
      · subst h; exact absurd hc (List.not_mem_nil c)
      · exact List.mem_cons_of_mem x (ih part h hc)
    · rw [if_neg hx] at hp
      cases hr : splitOnChar sep xs with
      | nil => exact absurd hr (splitOnChar_ne_nil sep xs)
      | cons r rs =>
        rw [hr] at hp
        rcases List.mem_cons.mp hp with h | h
        · subst h
          rcases List.mem_cons.mp hc with h2 | h2
          · subst h2; exact List.mem_cons_self c xs
          · have : c ∈ xs := ih r (hr ▸ List.mem_cons_self r rs) h2
            exact List.mem_cons_of_mem x this
        · have : c ∈ xs := ih part (hr ▸ List.mem_cons_of_mem r h) hc
          exact List.mem_cons_of_mem x this

theorem mem_dropWhile_of_neg {α : Type} (p : α → Bool) (c : α) :
    ∀ (l : List α), c ∈ l → p c = false → c ∈ l.dropWhile p := by
  intro l
  induction l with
  | nil => intro h _; exact absurd h (List.not_mem_nil c)
  | cons x xs ih =>
    intro hmem hpc
    rw [List.dropWhile_cons]
    by_cases hx : p x = true
    · rw [if_pos hx]
      rcases List.mem_cons.mp hmem with h | h
      · subst h; rw [hpc] at hx; exact Bool.noConfusion hx
      · exact ih h hpc
    · rw [if_neg hx]; exact hmem

theorem rustTrim_ne_nil_of_mem {c : Char} {l : List Char}
    (hc : c ∈ l) (hw : isRustWhitespace c = false) : rustTrim l ≠ [] := by
  intro h0
  unfold rustTrim at h0
  rw [List.reverse_eq_nil_iff, List.dropWhile_eq_nil_iff] at h0
  have hc1 : c ∈ (l.dropWhile isRustWhitespace).reverse :=
    List.mem_reverse.mpr (mem_dropWhile_of_neg isRustWhitespace c l hc hw)
  have := h0 c hc1
  rw [hw] at this
  exact Bool.noConfusion this

theorem classifyPart_parentDir {part : List Char}
    (h : classifyPart part = some PathComponent.parentDir) : part = ['.', '.'] := by
  unfold classifyPart at h
  by_cases h1 : part = []
  · rw [if_pos h1] at h; exact Option.noConfusion h
  · rw [if_neg h1] at h
    by_cases h2 : part = ['.']
    · rw [if_pos h2] at h; exact Option.noConfusion h
    · rw [if_neg h2] at h
      by_cases h3 : part = ['.', '.']
      · exact h3
      · rw [if_neg h3] at h
        have := (Option.some.injEq _ _).mp h
        exact PathComponent.noConfusion this

theorem dot_mem_of_parentDir_mem {p : String}
    (h : PathComponent.parentDir ∈ pathComponents p) : '.' ∈ p.data := by
  have hfm : PathComponent.parentDir ∈
      (splitOnChar '/' p.data).filterMap classifyPart := by
    simp only [pathComponents] at h
    by_cases hr : p.data.head? = some '/'
    · rw [if_pos hr] at h
      rcases List.mem_cons.mp h with h1 | h1
      · exact absurd h1 (by decide)
      · exact h1
    · rw [if_neg hr] at h
      split at h
      · rcases List.mem_cons.mp h with h1 | h1
        · exact absurd h1 (by decide)
        · exact h1
      · exact h
  obtain ⟨part, hpart, hcl⟩ := List.mem_filterMap.mp hfm
  have hdots := classifyPart_parentDir hcl
  subst hdots
  exact mem_of_mem_splitOnChar '/' '.' p.data ['.', '.'] hpart
    (List.mem_cons_self '.' ['.'])

/-! ## Claim theorems -/

/-- C1: execute_webview_script succeeds only when a Registry entry exists
for the id, its trusted flag is true, and the native surface still
exists; an absent entry and a present-but-untrusted entry are both
rejected with the identical trust-denial message, so callers cannot
distinguish the two cases. -/
theorem execute_script_trust_invariant (st : AppState) (evalErr : Option String)
    (id script : String) :
    (∀ r, execute_webview_script st evalErr id script = .ok r →
      ∃ entry, storeGet st.store id = some entry ∧ entry.trusted = true ∧ id ∈ st.native)
    ∧ (script.utf8ByteSize ≤ 100000 → storeGet st.store id = none →
      execute_webview_script st evalErr id script =
        .error "Webview is not trusted for script execution")
    ∧ (∀ entry, script.utf8ByteSize ≤ 100000 → storeGet st.store id = some entry →
      entry.trusted = false →
      execute_webview_script st evalErr id script =
        .error "Webview is not trusted for script execution") := by
  refine ⟨?_, ?_, ?_⟩
  · intro r h
    by_cases hsz : 100000 < script.utf8ByteSize
    · simp [execute_webview_script, hsz] at h
    · cases hg : storeGet st.store id with
      | none => simp [execute_webview_script, hsz, hg] at h
      | some entry =>
        by_cases ht : entry.trusted = true
        · by_cases hn : id ∈ st.native
          · exact ⟨entry, rfl, ht, hn⟩
          · simp [execute_webview_script, hsz, hg, ht, hn] at h
        · simp [execute_webview_script, hsz, hg, ht] at h
  · intro hsz hg
    have hsz' : ¬ 100000 < script.utf8ByteSize := by omega
    simp [execute_webview_script, hsz', hg]
  · intro entry hsz hg ht
    have hsz' : ¬ 100000 < script.utf8ByteSize := by omega
    simp [execute_webview_script, hsz', hg, ht]

/-- C1 witness: in a concrete state, an id never created and an id whose
entry is present but untrusted produce the same trust-denial error. -/
theorem execute_script_trust_invariant_witness :
    execute_webview_script ⟨[], []⟩ none "w" "x" =
      .error "Webview is not trusted for script execution"
    ∧ execute_webview_script
        ⟨[("w", ⟨⟨"https", some "example.com"⟩, false⟩)], ["w"]⟩ none "w" "x" =
      .error "Webview is not trusted for script execution" :=
  ⟨(execute_script_trust_invariant ⟨[], []⟩ none "w" "x").2.1 (by decide) rfl,
   (execute_script_trust_invariant
      ⟨[("w", ⟨⟨"https", some "example.com"⟩, false⟩)], ["w"]⟩ none "w" "x").2.2
     ⟨⟨"https", some "example.com"⟩, false⟩ (by decide) rfl rfl⟩

/-- C2: execute_webview_script rejects every script longer than 100000
characters with the size error, in every state and for every id (even one
never created), before any Registry lookup or trust check: the result is
the size rejection, never the trust-denial message.  The source compares
the UTF-8 byte length, which is at least the character count. -/
theorem execute_script_size_ceiling (st : AppState) (evalErr : Option String)
    (id script : String) (h : 100000 < script.length) :
    execute_webview_script st evalErr id script = .error "Script too large" := by
  have hb : 100000 < script.utf8ByteSize :=
    Nat.lt_of_lt_of_le h (length_le_utf8ByteSize script)
  unfold execute_webview_script
  rw [if_pos hb]

/-- C2 witness: a 100001-character script on an id that was never created
is rejected as too large, not with the trust-denial message. -/
theorem execute_script_size_ceiling_witness :
    100000 < bigScript.length ∧
    execute_webview_script ⟨[], []⟩ none "ghost" bigScript =
      .error "Script too large" :=
  ⟨by rw [bigScript_length]; omega,
   execute_script_size_ceiling ⟨[], []⟩ none "ghost" bigScript
     (by rw [bigScript_length]; omega)⟩

/-- C3: any parsed absolute URL whose scheme is not exactly http or https
is rejected with the blocked-scheme reason; for the schemes http and
https the scheme rule never fires. -/
theorem validate_url_scheme_rule (u : Url) :
    (u.scheme ≠ "http" → u.scheme ≠ "https" →
      validate_external_url u = .error ("Blocked URL scheme: " ++ u.scheme))
    ∧ ((u.scheme = "http" ∨ u.scheme = "https") →
      validate_external_url u ≠ .error ("Blocked URL scheme: " ++ u.scheme)) := by
  constructor
  · intro h1 h2
    unfold validate_external_url
    rw [if_pos ⟨h1, h2⟩]
  · intro hs hEq
    have hcond : ¬(u.scheme ≠ "http" ∧ u.scheme ≠ "https") := by
      rcases hs with h | h <;> simp [h]
    unfold validate_external_url at hEq
    rw [if_neg hcond] at hEq
    by_cases hb : u.hostStr ∈ blockedHosts
    · rw [if_pos hb] at hEq
      simp only [Except.error.injEq] at hEq
      exact schemeMsg_ne_hostMsg u.scheme u.hostStr hEq.symm
    · rw [if_neg hb] at hEq
      cases hp : parseIpv4 u.hostStr with
      | none => simp [hp] at hEq
      | some q =>
        obtain ⟨a, b, c, d⟩ := q
        simp only [hp] at hEq
        by_cases hpriv : a = 10 ∨ (a = 172 ∧ (16 ≤ b ∧ b ≤ 31)) ∨ (a = 192 ∧ b = 168)
        · rw [if_pos hpriv] at hEq
          simp only [Except.error.injEq] at hEq
          exact schemeMsg_ne_privateMsg u.scheme u.hostStr hEq.symm
        · rw [if_neg hpriv] at hEq
          exact Except.noConfusion hEq

/-- C3 witness: a file URL is rejected by the scheme rule; an http URL is
not rejected by it. -/
theorem validate_url_scheme_rule_witness :
    validate_external_url ⟨"file", some "example.com"⟩ =
      .error ("Blocked URL scheme: " ++ "file")
    ∧ validate_external_url ⟨"http", some "example.com"⟩ ≠
      .error ("Blocked URL scheme: " ++ "http") :=
  ⟨(validate_url_scheme_rule ⟨"file", some "example.com"⟩).1
      (by decide) (by decide),
   (validate_url_scheme_rule ⟨"http", some "example.com"⟩).2 (Or.inl rfl)⟩

/-- C4: for an http or https URL, a host exactly equal to one of the
literal strings localhost, 127.0.0.1, 0.0.0.0 or ::1 is rejected with the
blocked-host reason; any other host string is never rejected by the
blocklist rule. -/
theorem validate_url_host_blocklist (u : Url)
    (hs : u.scheme = "http" ∨ u.scheme = "https") :
    (u.hostStr ∈ ["localhost", "127.0.0.1", "0.0.0.0", "::1"] →
      validate_external_url u = .error ("Blocked URL host: " ++ u.hostStr))
    ∧ (u.hostStr ∉ ["localhost", "127.0.0.1", "0.0.0.0", "::1"] →
      validate_external_url u ≠ .error ("Blocked URL host: " ++ u.hostStr)) := by
  have hcond : ¬(u.scheme ≠ "http" ∧ u.scheme ≠ "https") := by
    rcases hs with h | h <;> simp [h]
  constructor
  · intro hb
    unfold validate_external_url
    rw [if_neg hcond, if_pos (show u.hostStr ∈ blockedHosts from hb)]
  · intro hb hEq
    unfold validate_external_url at hEq
    rw [if_neg hcond, if_neg (show u.hostStr ∉ blockedHosts from hb)] at hEq
    cases hp : parseIpv4 u.hostStr with
    | none => simp [hp] at hEq
    | some q =>
      obtain ⟨a, b, c, d⟩ := q
      simp only [hp] at hEq
      by_cases hpriv : a = 10 ∨ (a = 172 ∧ (16 ≤ b ∧ b ≤ 31)) ∨ (a = 192 ∧ b = 168)
      · rw [if_pos hpriv] at hEq
        simp only [Except.error.injEq] at hEq
        exact hostMsg_ne_privateMsg u.hostStr u.hostStr hEq.symm
      · rw [if_neg hpriv] at hEq
        exact Except.noConfusion hEq

/-- C4 witness: the IPv6 loopback literal host ::1 is rejected by the
blocklist rule on an https URL; the host example.com is not rejected by
it. -/
theorem validate_url_host_blocklist_witness :
    validate_external_url ⟨"https", some "::1"⟩ =
      .error ("Blocked URL host: " ++ "::1")
    ∧ validate_external_url ⟨"https", some "example.com"⟩ ≠
      .error ("Blocked URL host: " ++ "example.com") :=
  ⟨(validate_url_host_blocklist ⟨"https", some "::1"⟩ (Or.inr rfl)).1 (by decide),
   (validate_url_host_blocklist ⟨"https", some "example.com"⟩ (Or.inr rfl)).2
      (by decide)⟩

/-- C5: for an http or https URL whose host parses as a dotted-decimal
IPv4 address, the URL is rejected when the address lies in 10.0.0.0/8,
172.16.0.0/12 or 192.168.0.0/16; the host 8.8.8.8 is accepted; and any
host outside these ranges and outside the literal blocklist passes. -/
theorem validate_url_private_ipv4 (u : Url)
    (hs : u.scheme = "http" ∨ u.scheme = "https") :
    (∀ a b c d, parseIpv4 u.hostStr = some (a, b, c, d) →
      (a = 10 ∨ (a = 172 ∧ (16 ≤ b ∧ b ≤ 31)) ∨ (a = 192 ∧ b = 168)) →
      validate_external_url u = .error ("Blocked private IP: " ++ u.hostStr))
    ∧ validate_external_url ⟨u.scheme, some "8.8.8.8"⟩ = .ok ()
    ∧ (u.hostStr ∉ ["localhost", "127.0.0.1", "0.0.0.0", "::1"] →
      (∀ a b c d, parseIpv4 u.hostStr = some (a, b, c, d) →
        ¬(a = 10 ∨ (a = 172 ∧ (16 ≤ b ∧ b ≤ 31)) ∨ (a = 192 ∧ b = 168))) →
      validate_external_url u = .ok ()) := by
  have hcond : ¬(u.scheme ≠ "http" ∧ u.scheme ≠ "https") := by
    rcases hs with h | h <;> simp [h]
  refine ⟨?_, ?_, ?_⟩
  · intro a b c d hp hpriv
    have hb : u.hostStr ∉ blockedHosts :=
      private_parse_not_blocked u.hostStr a b c d hp hpriv
    unfold validate_external_url
    rw [if_neg hcond, if_neg hb]
    simp only [hp]
    rw [if_pos hpriv]
  · rcases hs with h | h <;> rw [h]
    · exact rfl
    · exact rfl
  · intro hb hnp
    unfold validate_external_url
    rw [if_neg hcond, if_neg (show u.hostStr ∉ blockedHosts from hb)]
    cases hp : parseIpv4 u.hostStr with
    | none => rfl
    | some q =>
      obtain ⟨a, b, c, d⟩ := q
      simp only []
      rw [if_neg (hnp a b c d hp)]

/-- C5 witness: an http URL with host 10.1.2.3 is rejected as a private
IP, and an http URL with hostname example.com (which does not parse as
IPv4) is accepted. -/
theorem validate_url_private_ipv4_witness :
    validate_external_url ⟨"http", some "10.1.2.3"⟩ =
      .error ("Blocked private IP: " ++ "10.1.2.3")
    ∧ validate_external_url ⟨"http", some "example.com"⟩ = .ok () :=
  ⟨(validate_url_private_ipv4 ⟨"http", some "10.1.2.3"⟩ (Or.inl rfl)).1
      10 1 2 3 (by decide) (by decide),
   (validate_url_private_ipv4 ⟨"http", some "example.com"⟩ (Or.inl rfl)).2.2
      (by decide)
      (fun a b c d hp => by
        rw [show parseIpv4 (Url.hostStr ⟨"http", some "example.com"⟩) = none
            from by decide] at hp
        exact Option.noConfusion hp)⟩

/-- C6: every path containing a literal parent-directory component is
rejected by sanitize_fs_path, regardless of where the component sits or
of the final lexical target; and when the empty-input and absolute-path
checks pass, the rejection is exactly the parent-traversal error,
showing the syntactic check runs right after those two checks. -/
theorem sanitize_path_rejects_parent_traversal (homeEnv : Option String)
    (path : String) :
    (PathComponent.parentDir ∈ pathComponents path →
      (sanitize_fs_path homeEnv path).isOk = false)
    ∧ (rustTrim path.data ≠ [] → path.data.head? = some '/' →
      PathComponent.parentDir ∈ pathComponents path →
      sanitize_fs_path homeEnv path =
        .error "Parent directory traversal is not allowed") := by
  constructor
  · intro hmem
    unfold sanitize_fs_path
    by_cases h1 : rustTrim path.data = []
    · rw [if_pos h1]; rfl
    · rw [if_neg h1]
      by_cases h2 : path.data.head? = some '/'
      · rw [if_neg (not_not_intro h2), if_pos hmem]; rfl
      · rw [if_pos h2]; rfl
  · intro h1 h2 hmem
    unfold sanitize_fs_path
    rw [if_neg h1, if_neg (not_not_intro h2), if_pos hmem]

/-- C6 witness: a path whose lexical target stays inside the home
directory is still rejected, with the parent-traversal error. -/
theorem sanitize_path_rejects_parent_traversal_witness :
    (sanitize_fs_path (some "/home/user") "/home/user/a/../b").isOk = false
    ∧ sanitize_fs_path (some "/home/user") "/home/user/a/../b" =
      .error "Parent directory traversal is not allowed" :=
  ⟨(sanitize_path_rejects_parent_traversal (some "/home/user")
      "/home/user/a/../b").1 (by decide),
   (sanitize_path_rejects_parent_traversal (some "/home/user")
      "/home/user/a/../b").2 (by decide) (by decide) (by decide)⟩

/-- C7: for an absolute, traversal-free path: when the home directory is
resolvable, the path is accepted exactly when it is component-prefixed by
the home directory and rejected with the home-restriction error
otherwise; when no home directory can be resolved, the containment check
is skipped and the path is accepted. -/
theorem sanitize_path_home_confinement (homeEnv : Option String) (path : String)
    (habs : path.data.head? = some '/')
    (htrav : PathComponent.parentDir ∉ pathComponents path) :
    (∀ home, homeEnv = some home →
      ((pathComponents home).isPrefixOf (pathComponents path) = true →
        sanitize_fs_path homeEnv path = .ok path)
      ∧ ((pathComponents home).isPrefixOf (pathComponents path) = false →
        sanitize_fs_path homeEnv path =
          .error "File operations are restricted to the home directory"))
    ∧ (homeEnv = none → sanitize_fs_path homeEnv path = .ok path) := by
  have hslash : '/' ∈ path.data :=
    List.mem_of_mem_head? (Option.mem_def.mpr habs)
  have h1 : rustTrim path.data ≠ [] :=
    rustTrim_ne_nil_of_mem hslash (by decide)
  constructor
  · intro home hh
    subst hh
    constructor
    · intro hpref
      unfold sanitize_fs_path
      rw [if_neg h1, if_neg (not_not_intro habs), if_neg htrav]
      simp only [hpref]
      rfl
    · intro hpref
      unfold sanitize_fs_path
      rw [if_neg h1, if_neg (not_not_intro habs), if_neg htrav]
      simp only [hpref]
      rfl
  · intro hh
    subst hh
    unfold sanitize_fs_path
    rw [if_neg h1, if_neg (not_not_intro habs), if_neg htrav]

/-- C7 witness: with home directory /Users/me, a path under it is
accepted and /etc/passwd is rejected; with no resolvable home directory,
/etc/passwd is accepted. -/
theorem sanitize_path_home_confinement_witness :
    sanitize_fs_path (some "/Users/me") "/Users/me/notes.txt" =
      .ok "/Users/me/notes.txt"
    ∧ sanitize_fs_path (some "/Users/me") "/etc/passwd" =
      .error "File operations are restricted to the home directory"
    ∧ sanitize_fs_path none "/etc/passwd" = .ok "/etc/passwd" :=
  ⟨((sanitize_path_home_confinement (some "/Users/me") "/Users/me/notes.txt"
      (by decide) (by decide)).1 "/Users/me" rfl).1 (by decide),
   ((sanitize_path_home_confinement (some "/Users/me") "/etc/passwd"
      (by decide) (by decide)).1 "/Users/me" rfl).2 (by decide),
   (sanitize_path_home_confinement none "/etc/passwd"
      (by decide) (by decide)).2 rfl⟩

/-- C8: a navigate_webview call whose URL fails parsing or fails policy
validation returns an error and leaves the entire state (Registry
entries, stored urls, native surfaces) exactly as it was: validation
happens before any native or Registry mutation. -/
theorem navigate_rejected_preserves_state (st : AppState)
    (parsedUrl : Except String Url) (navErr : Option String) (id : String)
    (h : (∃ e, parsedUrl = .error e) ∨
      (∃ u e, parsedUrl = .ok u ∧ validate_external_url u = .error e)) :
    (navigate_webview st parsedUrl navErr id).2 = st
    ∧ ∃ e, (navigate_webview st parsedUrl navErr id).1 = .error e := by
  rcases h with ⟨e, he⟩ | ⟨u, e, hu, hv⟩
  · subst he
    exact ⟨rfl, e, rfl⟩
  · subst hu
    constructor
    · simp [navigate_webview, hv]
    · exact ⟨e, by simp [navigate_webview, hv]⟩

/-- C8 witness: on a state holding a live surface w at example.com, a
parse failure and a policy rejection both leave the state unchanged. -/
theorem navigate_rejected_preserves_state_witness :
    (navigate_webview
      ⟨[("w", ⟨⟨"https", some "example.com"⟩, true⟩)], ["w"]⟩
      (.error "relative URL without a base") none "w").2 =
      ⟨[("w", ⟨⟨"https", some "example.com"⟩, true⟩)], ["w"]⟩
    ∧ (navigate_webview
      ⟨[("w", ⟨⟨"https", some "example.com"⟩, true⟩)], ["w"]⟩
      (.ok ⟨"http", some "10.0.0.5"⟩) none "w").2 =
      ⟨[("w", ⟨⟨"https", some "example.com"⟩, true⟩)], ["w"]⟩ :=
  ⟨(navigate_rejected_preserves_state
      ⟨[("w", ⟨⟨"https", some "example.com"⟩, true⟩)], ["w"]⟩
      (.error "relative URL without a base") none "w"
      (Or.inl ⟨"relative URL without a base", rfl⟩)).1,
   (navigate_rejected_preserves_state
      ⟨[("w", ⟨⟨"https", some "example.com"⟩, true⟩)], ["w"]⟩
      (.ok ⟨"http", some "10.0.0.5"⟩) none "w"
      (Or.inr ⟨⟨"http", some "10.0.0.5"⟩,
        "Blocked private IP: " ++ "10.0.0.5", rfl, rfl⟩)).1⟩

/-- C9 counterexample: destroy_webview does not always succeed.  With a
live native surface whose close call reports a platform failure, the
source propagates the error (lib.rs line 149), so the first destroy of
the pair already returns an error. -/
theorem destroy_close_failure_counterexample :
    (destroy_webview ⟨[], ["w1"]⟩ (some "platform close failed") "w1").1 =
      .error "platform close failed"
    ∧ ¬ (destroy_webview ⟨[], ["w1"]⟩ (some "platform close failed") "w1").1 =
      .ok () :=
  ⟨rfl, fun hEq => Except.noConfusion hEq⟩

/-- C9 amended: destroying an id with no live native surface always
succeeds; destroy succeeds whenever the native close does not fail; and
the sequence destroy(id); destroy(id) returns success both times
whenever the first call's native close succeeds (the second call then
finds the surface gone and succeeds for any close outcome). -/
theorem destroy_idempotent (st : AppState) (c1 c2 : Option String) (id : String) :
    (id ∉ st.native → (destroy_webview st c1 id).1 = .ok ())
    ∧ (destroy_webview st none id).1 = .ok ()
    ∧ (destroy_webview (destroy_webview st none id).2 c2 id).1 = .ok () := by
  refine ⟨?_, ?_, ?_⟩
  · intro h
    simp [destroy_webview, h]
  · by_cases hn : id ∈ st.native <;> simp [destroy_webview, hn]
  · have hnot : id ∉ (destroy_webview st none id).2.native := by
      by_cases hn : id ∈ st.native
      · simp [destroy_webview, hn]
      · simp [destroy_webview, hn]
    generalize (destroy_webview st none id).2 = st2 at hnot
    simp [destroy_webview, hnot]

/-- C9 witness: destroying an id with no native surface succeeds even if
the close oracle would fail, and destroy; destroy on a live surface
succeeds both times when the first close succeeds — even if a second
close would have failed. -/
theorem destroy_idempotent_witness :
    (destroy_webview ⟨[], []⟩ (some "boom") "w").1 = .ok ()
    ∧ (destroy_webview ⟨[("w", ⟨⟨"https", some "example.com"⟩, true⟩)], ["w"]⟩
        none "w").1 = .ok ()
    ∧ (destroy_webview
        (destroy_webview ⟨[("w", ⟨⟨"https", some "example.com"⟩, true⟩)], ["w"]⟩
          none "w").2 (some "boom") "w").1 = .ok () :=
  ⟨(destroy_idempotent ⟨[], []⟩ (some "boom") (some "x") "w").1 (by decide),
   (destroy_idempotent ⟨[("w", ⟨⟨"https", some "example.com"⟩, true⟩)], ["w"]⟩
      none (some "boom") "w").2.1,
   (destroy_idempotent ⟨[("w", ⟨⟨"https", some "example.com"⟩, true⟩)], ["w"]⟩
      none (some "boom") "w").2.2⟩

/-- C10: destroy_webview removes the Registry entry unconditionally
before attempting the native close: after the call — whether it returned
success or a propagated close failure — no Registry entry for the id
remains, and a subsequent execute_webview_script on the id (with a script
within the size ceiling, which is checked first) is denied with the
trust-denial message. -/
theorem destroy_removes_registry_entry (st : AppState)
    (closeErr evalErr : Option String) (id : String) :
    storeGet (destroy_webview st closeErr id).2.store id = none
    ∧ ∀ script, script.utf8ByteSize ≤ 100000 →
      execute_webview_script (destroy_webview st closeErr id).2 evalErr id script =
        .error "Webview is not trusted for script execution" := by
  have hstore : (destroy_webview st closeErr id).2.store = storeRemove st.store id := by
    unfold destroy_webview
    by_cases hn : id ∈ st.native
    · cases closeErr <;> simp [hn]
    · simp [hn]
  have hget : storeGet (destroy_webview st closeErr id).2.store id = none := by
    rw [hstore]
    exact storeGet_storeRemove st.store id
  refine ⟨hget, ?_⟩
  intro script hsz
  have hsz' : ¬ 100000 < script.utf8ByteSize := by omega
  simp [execute_webview_script, hsz', hget]

/-- C10 witness: destroying a live trusted surface whose close fails
still removes the Registry entry, and a following script execution is
denied with the trust-denial message. -/
theorem destroy_removes_registry_entry_witness :
    storeGet (destroy_webview
      ⟨[("w", ⟨⟨"https", some "example.com"⟩, true⟩)], ["w"]⟩
      (some "platform close failed") "w").2.store "w" = none
    ∧ execute_webview_script (destroy_webview
        ⟨[("w", ⟨⟨"https", some "example.com"⟩, true⟩)], ["w"]⟩
        (some "platform close failed") "w").2 none "w" "document.title" =
      .error "Webview is not trusted for script execution" :=
  ⟨(destroy_removes_registry_entry
      ⟨[("w", ⟨⟨"https", some "example.com"⟩, true⟩)], ["w"]⟩
      (some "platform close failed") none "w").1,
   (destroy_removes_registry_entry
      ⟨[("w", ⟨⟨"https", some "example.com"⟩, true⟩)], ["w"]⟩
      (some "platform close failed") none "w").2 "document.title" (by decide)⟩

end Infinitty
